import Mathlib

/-! Shallow embedding of the SQL statement splitter and the structural
validators of the migration scripts: the character scan of
validate_sql_file in scripts/validate_migration_improved.py, its
per-statement checks, the line validator of scripts/validate_fixed_sql.py,
the INSERT generator of scripts/migrate_videos_to_d1.py, and the exit-code
logic of the migration entry points. Statements are modelled as lists of
characters; Python str.strip is pyStrip. -/

/-- Python str.strip with no argument: drop whitespace from both ends. -/
def pyStrip (s : List Char) : List Char :=
  ((s.dropWhile Char.isWhitespace).reverse.dropWhile Char.isWhitespace).reverse

/-- State of the splitting loop of validate_sql_file
(validate_migration_improved.py, lines 16-19): the emitted statements, the
accumulating buffer, and the in_string and escape_next flags. -/
structure SplitState where
  statements : List (List Char)
  current : List Char
  inString : Bool
  escapeNext : Bool
deriving DecidableEq

/-- One iteration of the loop of validate_sql_file
(validate_migration_improved.py, lines 21-37): append the character to the
buffer; a character after an escape is skipped; a backslash sets
escape_next; an unescaped single quote toggles in_string; a semicolon
outside a string emits the stripped buffer and resets it. -/
def splitStep (st : SplitState) (c : Char) : SplitState :=
  let cur := st.current ++ [c]
  if st.escapeNext then
    { st with current := cur, escapeNext := false }
  else if c = '\\' then
    { st with current := cur, escapeNext := true }
  else
    let ins := if c = '\'' then !st.inString else st.inString
    if c = ';' ∧ ins = false then
      { statements := st.statements ++ [pyStrip cur], current := [],
        inString := ins, escapeNext := st.escapeNext }
    else
      { st with current := cur, inString := ins }

/-- Initial state of the splitting loop: no statements, empty buffer,
both flags false. -/
def splitInit : SplitState := ⟨[], [], false, false⟩

/-- The statement list produced by the splitting loop of validate_sql_file
on the whole file content; the buffer left at end of input is not used. -/
def splitStatements (content : List Char) : List (List Char) :=
  (content.foldl splitStep splitInit).statements

example : splitStatements ("INSERT INTO videos (a) VALUES ('x;y');").data =
    [("INSERT INTO videos (a) VALUES ('x;y');").data] := by decide

example : splitStatements ("a;b;").data = [("a;").data, ("b;").data] := by
  decide

example : splitStatements ("abc").data = [] := by decide

/-- Python substring membership (the in operator on str): some contiguous
run of s equals pat. -/
def containsSub (pat : List Char) : List Char → Bool
  | [] => pat.isPrefixOf []
  | c :: rest => pat.isPrefixOf (c :: rest) || containsSub pat rest

/-- Python str.count for a non-empty pattern, on fuel: non-overlapping
occurrences, scanning left to right; each step consumes at least one
character, so fuel at least the length of the text is enough. -/
def countOccAux (pat : List Char) : Nat → List Char → Nat
  | 0, _ => 0
  | _, [] => 0
  | fuel + 1, c :: rest =>
    if pat.isPrefixOf (c :: rest) then
      1 + countOccAux pat fuel (rest.drop (pat.length - 1))
    else
      countOccAux pat fuel rest

/-- Python str.count for a non-empty pattern (used for statement.count of
the VALUES token). -/
def countOcc (pat s : List Char) : Nat := countOccAux pat s.length s

/-- The escape-aware single-quote scan of validate_sql_file
(validate_migration_improved.py, lines 67-77) folded over the statement:
the pair of quote count so far and the escape_next flag. -/
def quoteScanStep (acc : Nat × Bool) (c : Char) : Nat × Bool :=
  if acc.2 then (acc.1, false)
  else if c = '\\' then (acc.1, true)
  else if c = '\'' then (acc.1 + 1, false)
  else (acc.1, false)

/-- len of quote_positions in validate_sql_file: the number of unescaped
single quotes of the statement. -/
def realQuotes (statement : List Char) : Nat :=
  (statement.foldl quoteScanStep (0, false)).1

example : realQuotes (("VALUES ('it')").data) = 2 := by decide

example : realQuotes (("VALUES ('it\\'s')").data) = 2 := by decide

/-- Defect text of validate_sql_file for a statement that does not start
with INSERT INTO videos. -/
def msgNotInsert (stmtNum : Nat) : String :=
  "Statement " ++ toString stmtNum ++ ": Not an INSERT statement"

/-- Defect text of validate_sql_file for a statement without an explicit
column list. -/
def msgInvalidSyntax (stmtNum : Nat) : String :=
  "Statement " ++ toString stmtNum ++ ": Invalid INSERT syntax"

/-- Defect text of validate_sql_file for a statement with no VALUES
clause. -/
def msgMissingValues (stmtNum : Nat) : String :=
  "Statement " ++ toString stmtNum ++ ": Missing VALUES clause"

/-- Defect text of validate_sql_file for unbalanced parentheses, citing
both counts. -/
def msgParens (stmtNum opens closes : Nat) : String :=
  "Statement " ++ toString stmtNum ++ ": Unbalanced parentheses (" ++
    toString opens ++ " open, " ++ toString closes ++ " close)"

/-- Defect text of validate_sql_file for an odd number of unescaped single
quotes, citing the count. -/
def msgQuotes (stmtNum quotes : Nat) : String :=
  "Statement " ++ toString stmtNum ++ ": Unbalanced quotes (" ++
    toString quotes ++ " quotes)"

/-- Defect text of validate_sql_file for a cluster of empty fields. -/
def msgEmptyFields (stmtNum : Nat) : String :=
  "Statement " ++ toString stmtNum ++ ": Contains multiple empty fields"

/-- Defect text of validate_sql_file for a statement whose VALUES token
count is not one. -/
def msgValuesOnce (stmtNum : Nat) : String :=
  "Statement " ++ toString stmtNum ++ ": Should have exactly one VALUES clause"

/-- The INSERT INTO videos prefix required by the first check of
validate_sql_file. -/
def insHead : List Char := ("INSERT INTO videos").data

/-- The INSERT INTO videos ( prefix required by the column-list check of
validate_sql_file. -/
def insHeadParen : List Char := ("INSERT INTO videos (").data

/-- The VALUES ( pattern of the VALUES-clause check of
validate_sql_file. -/
def valuesParenPat : List Char := ("VALUES (").data

/-- The empty-field cluster pattern of validate_sql_file. -/
def emptyFieldsPat : List Char := ("'', '', '', ''").data

/-- The VALUES token of the exactly-one-VALUES check of
validate_sql_file. -/
def valuesPat : List Char := ("VALUES").data

/-- The loop body of validate_sql_file over one statement
(validate_migration_improved.py, lines 46-91): the prefix check skips all
remaining checks; otherwise every remaining check appends its defect to the
accumulated error list. -/
def stmtChecks (stmtNum : Nat) (statement : List Char)
    (errors : List String) : List String :=
  if ¬ insHead.isPrefixOf (pyStrip statement) then
    errors ++ [msgNotInsert stmtNum]
  else
    let e1 := if ¬ insHeadParen.isPrefixOf (pyStrip statement) then
      errors ++ [msgInvalidSyntax stmtNum] else errors
    let e2 := if ¬ containsSub valuesParenPat statement then
      e1 ++ [msgMissingValues stmtNum] else e1
    let e3 := if List.count '(' statement ≠ List.count ')' statement then
      e2 ++ [msgParens stmtNum (List.count '(' statement)
        (List.count ')' statement)] else e2
    let e4 := if realQuotes statement % 2 ≠ 0 then
      e3 ++ [msgQuotes stmtNum (realQuotes statement)] else e3
    let e5 := if containsSub emptyFieldsPat statement then
      e4 ++ [msgEmptyFields stmtNum] else e4
    if countOcc valuesPat statement ≠ 1 then
      e5 ++ [msgValuesOnce stmtNum] else e5

/-- The statement loop of validate_sql_file
(validate_migration_improved.py, lines 40-92): statements are numbered from
one by position in the split list, empty statements are skipped without
counting, and each kept statement runs the checks against the accumulated
error list. -/
def validateStatements (statements : List (List Char)) : Nat × List String :=
  statements.enum.foldl
    (fun acc p =>
      if pyStrip p.2 = [] then acc
      else (acc.1 + 1, stmtChecks (p.1 + 1) p.2 acc.2))
    (0, [])

/-- validate_sql_file of validate_migration_improved.py on file content
already in memory: split, then validate each statement. -/
def validateContent (content : List Char) : Nat × List String :=
  validateStatements (splitStatements content)

example :
    validateContent ("INSERT INTO videos (video_id) VALUES ('abc');").data =
      (1, []) := by decide

/-- The column-list check of validate_sql_file in isolation
(validate_migration_improved.py, lines 52-53). -/
def checkSyntax (stmtNum : Nat) (statement : List Char) : List String :=
  if ¬ insHeadParen.isPrefixOf (pyStrip statement) then
    [msgInvalidSyntax stmtNum] else []

/-- The VALUES-clause check of validate_sql_file in isolation
(validate_migration_improved.py, lines 56-57). -/
def checkValuesClause (stmtNum : Nat) (statement : List Char) : List String :=
  if ¬ containsSub valuesParenPat statement then
    [msgMissingValues stmtNum] else []

/-- The balanced-parentheses check of validate_sql_file in isolation
(validate_migration_improved.py, lines 60-63). -/
def checkParens (stmtNum : Nat) (statement : List Char) : List String :=
  if List.count '(' statement ≠ List.count ')' statement then
    [msgParens stmtNum (List.count '(' statement)
      (List.count ')' statement)] else []

/-- The even-unescaped-quote-count check of validate_sql_file in isolation
(validate_migration_improved.py, lines 80-82). -/
def checkQuotes (stmtNum : Nat) (statement : List Char) : List String :=
  if realQuotes statement % 2 ≠ 0 then
    [msgQuotes stmtNum (realQuotes statement)] else []

/-- The empty-field-cluster check of validate_sql_file in isolation
(validate_migration_improved.py, lines 86-87). -/
def checkEmptyFields (stmtNum : Nat) (statement : List Char) : List String :=
  if containsSub emptyFieldsPat statement then
    [msgEmptyFields stmtNum] else []

/-- The exactly-one-VALUES check of validate_sql_file in isolation
(validate_migration_improved.py, lines 90-91). -/
def checkValuesOnce (stmtNum : Nat) (statement : List Char) : List String :=
  if countOcc valuesPat statement ≠ 1 then
    [msgValuesOnce stmtNum] else []

/-- The loop body of validate_sql_file appends to the error list exactly
the concatenation of the isolated checks: one defect for a statement
without the INSERT prefix, else everything the six remaining checks
produce. -/
theorem stmtChecks_decomp (stmtNum : Nat) (statement : List Char)
    (errors : List String) :
    stmtChecks stmtNum statement errors =
      errors ++
        (if insHead.isPrefixOf (pyStrip statement) then
          checkSyntax stmtNum statement ++ checkValuesClause stmtNum statement
            ++ checkParens stmtNum statement ++ checkQuotes stmtNum statement
            ++ checkEmptyFields stmtNum statement
            ++ checkValuesOnce stmtNum statement
        else [msgNotInsert stmtNum]) := by
  unfold stmtChecks checkSyntax checkValuesClause checkParens checkQuotes
    checkEmptyFields checkValuesOnce
  by_cases h : insHead.isPrefixOf (pyStrip statement)
  · simp only [h, not_true_eq_false, if_false, if_true, Bool.true_eq]
    split <;> split <;> split <;> split <;> split <;> split <;>
      simp [List.append_assoc]
  · simp [h]

/-- A character other than a semicolon never emits a statement. -/
theorem splitStep_ne_semi (st : SplitState) (c : Char) (h : c ≠ ';') :
    (splitStep st c).statements = st.statements := by
  unfold splitStep
  by_cases he : st.escapeNext
  · simp [he]
  · by_cases hb : c = '\\'
    · simp [he, hb]
    · simp [he, hb, h]

/-- A run of the splitting loop over text with no semicolon emits
nothing. -/
theorem foldl_no_semi (cs : List Char) : ∀ st : SplitState, ';' ∉ cs →
    (cs.foldl splitStep st).statements = st.statements := by
  induction cs with
  | nil => intro st _; rfl
  | cons c rest ih =>
    intro st h
    have hc : c ≠ ';' := by
      intro hc
      exact h (hc ▸ List.mem_cons_self c rest)
    have hrest : ';' ∉ rest := fun hm => h (List.mem_cons_of_mem c hm)
    simp only [List.foldl_cons]
    rw [ih (splitStep st c) hrest]
    exact splitStep_ne_semi st c hc

/-- C1: a semicolon scanned while the in_string flag is set is not treated
as a statement separator, and splitting the single statement INSERT INTO
videos (a) VALUES ('x;y'); yields exactly that one statement. -/
theorem semi_inside_string_no_split :
    (∀ st : SplitState, st.inString = true →
      (splitStep st ';').statements = st.statements) ∧
    splitStatements (("INSERT INTO videos (a) VALUES ('x;y');").data) =
      [("INSERT INTO videos (a) VALUES ('x;y');").data] := by
  constructor
  · intro st h
    unfold splitStep
    by_cases he : st.escapeNext
    · simp [he]
    · simp [he, h]
  · decide

/-- Witness for C1 at a concrete splitter state and the concrete
statement. -/
theorem semi_inside_string_no_split_witness :
    (splitStep ⟨[], ("VALUES ('a").data, true, false⟩ ';').statements = [] ∧
    splitStatements (("INSERT INTO videos (a) VALUES ('x;y');").data) =
      [("INSERT INTO videos (a) VALUES ('x;y');").data] :=
  ⟨semi_inside_string_no_split.1 ⟨[], ("VALUES ('a").data, true, false⟩ rfl,
   semi_inside_string_no_split.2⟩

/-- C4: a character right after an unescaped backslash never toggles the
in_string flag, and the statement INSERT INTO videos (a) VALUES ('it\'s');
splits into exactly that one statement. -/
theorem escaped_quote_no_toggle :
    (∀ (st : SplitState) (c : Char), st.escapeNext = true →
      (splitStep st c).inString = st.inString) ∧
    splitStatements (("INSERT INTO videos (a) VALUES ('it\\'s');").data) =
      [("INSERT INTO videos (a) VALUES ('it\\'s');").data] := by
  constructor
  · intro st c h
    unfold splitStep
    simp [h]
  · decide

/-- Witness for C4 at a concrete splitter state with escape_next set and a
quote character. -/
theorem escaped_quote_no_toggle_witness :
    (splitStep ⟨[], ("('it\\").data, true, true⟩ '\'').inString = true ∧
    splitStatements (("INSERT INTO videos (a) VALUES ('it\\'s');").data) =
      [("INSERT INTO videos (a) VALUES ('it\\'s');").data] :=
  ⟨escaped_quote_no_toggle.1 ⟨[], ("('it\\").data, true, true⟩ '\'' rfl,
   escaped_quote_no_toggle.2⟩

/-- C3 counterexample: on input with a non-empty trailing buffer and no
top-level semicolon at all, the splitter emits nothing, although the
trimmed trailing buffer is non-empty. -/
theorem trailing_buffer_dropped_cex :
    splitStatements (("INSERT INTO videos (a) VALUES (1)").data) = [] ∧
    pyStrip (("INSERT INTO videos (a) VALUES (1)").data) ≠ [] := by decide

/-- C3 amended: the trailing buffer after the last split point is
discarded, never emitted: appending semicolon-free text to any input
leaves the splitter output unchanged. -/
theorem trailing_buffer_dropped (content extra : List Char)
    (h : ';' ∉ extra) :
    splitStatements (content ++ extra) = splitStatements content := by
  unfold splitStatements
  rw [List.foldl_append]
  exact foldl_no_semi extra _ h

/-- Witness for the amended C3 on concrete input and trailing text. -/
theorem trailing_buffer_dropped_witness :
    splitStatements (("a;").data ++ ("INSERT INTO videos").data) =
      splitStatements (("a;").data) :=
  trailing_buffer_dropped (("a;").data) (("INSERT INTO videos").data)
    (by decide)

/-- Join a statement list with a semicolon and a newline between
consecutive statements, as the round-trip wording of the spec
prescribes. -/
def joinSemiNL : List (List Char) → List Char
  | [] => []
  | [s] => s
  | s :: t :: rest => s ++ ';' :: '\n' :: joinSemiNL (t :: rest)

/-- Join a statement list with a newline between consecutive statements;
the statements of the splitter already carry their terminating
semicolons. -/
def joinNL : List (List Char) → List Char
  | [] => []
  | [s] => s
  | s :: t :: rest => s ++ '\n' :: joinNL (t :: rest)

/-- C2 counterexample: joining the two statements split from a;b; with a
semicolon and a newline and re-splitting does not reproduce the list, since
split statements already end in their semicolon and the extra separator
semicolon becomes a spurious statement. -/
theorem split_join_semi_not_idem :
    splitStatements (joinSemiNL (splitStatements (("a;b;").data))) ≠
      splitStatements (("a;b;").data) := by decide

/-- C5: the validator on the single statement INSERT INTO videos (video_id)
VALUES ('abc'); counts one statement and produces zero defects. -/
theorem validator_clean_statement :
    validateContent
        (("INSERT INTO videos (video_id) VALUES ('abc');").data) =
      (1, []) := by decide

/-- C6: a statement with the INSERT INTO videos prefix runs every remaining
check and collects every resulting defect after the already accumulated
ones, never stopping at the first; a statement without the prefix
contributes exactly the single not-an-INSERT defect and skips the remaining
checks. -/
theorem validator_collects_all :
    (∀ (stmtNum : Nat) (statement : List Char) (errors : List String),
      insHead.isPrefixOf (pyStrip statement) = true →
      stmtChecks stmtNum statement errors =
        errors ++ (checkSyntax stmtNum statement
          ++ checkValuesClause stmtNum statement
          ++ checkParens stmtNum statement ++ checkQuotes stmtNum statement
          ++ checkEmptyFields stmtNum statement
          ++ checkValuesOnce stmtNum statement)) ∧
    (∀ (stmtNum : Nat) (statement : List Char) (errors : List String),
      insHead.isPrefixOf (pyStrip statement) = false →
      stmtChecks stmtNum statement errors =
        errors ++ [msgNotInsert stmtNum]) := by
  constructor
  · intro n s errors h
    rw [stmtChecks_decomp, if_pos h]
  · intro n s errors h
    rw [stmtChecks_decomp, if_neg (by simp [h])]

/-- Witness for C6: a malformed INSERT statement collects the defects of
several checks at once, and a non-INSERT statement only the prefix
defect. -/
theorem validator_collects_all_witness :
    stmtChecks 1 (("INSERT INTO videos VALUES ('a), ('b);").data) [] =
      [] ++ (checkSyntax 1 (("INSERT INTO videos VALUES ('a), ('b);").data)
        ++ checkValuesClause 1 (("INSERT INTO videos VALUES ('a), ('b);").data)
        ++ checkParens 1 (("INSERT INTO videos VALUES ('a), ('b);").data)
        ++ checkQuotes 1 (("INSERT INTO videos VALUES ('a), ('b);").data)
        ++ checkEmptyFields 1 (("INSERT INTO videos VALUES ('a), ('b);").data)
        ++ checkValuesOnce 1 (("INSERT INTO videos VALUES ('a), ('b);").data))
      ∧
    stmtChecks 2 (("SELECT 1;").data) [] = [] ++ [msgNotInsert 2] :=
  ⟨validator_collects_all.1 1 _ [] (by decide),
   validator_collects_all.2 2 _ [] (by decide)⟩

/-- C7 counterexample: a statement without the INSERT INTO videos prefix
and with an odd unescaped-quote count gets no unbalanced-quotes defect from
the validator, only the not-an-INSERT defect. -/
theorem odd_quotes_skipped_cex :
    realQuotes (("x' y;").data) % 2 = 1 ∧
    stmtChecks 1 (("x' y;").data) [] = [msgNotInsert 1] ∧
    msgQuotes 1 (realQuotes (("x' y;").data)) ∉
      stmtChecks 1 (("x' y;").data) [] := by decide

/-- C7 amended: for a statement with the INSERT INTO videos prefix whose
unescaped single-quote count is odd, the validator emits the
unbalanced-quotes defect citing that exact count. -/
theorem odd_quotes_defect (stmtNum : Nat) (statement : List Char)
    (errors : List String)
    (hpre : insHead.isPrefixOf (pyStrip statement) = true)
    (hodd : realQuotes statement % 2 = 1) :
    msgQuotes stmtNum (realQuotes statement) ∈
      stmtChecks stmtNum statement errors := by
  have h0 : realQuotes statement % 2 ≠ 0 := by omega
  rw [stmtChecks_decomp, if_pos hpre]
  simp [checkQuotes, h0, List.mem_append]

/-- Witness for the amended C7 on a concrete odd-quote INSERT
statement. -/
theorem odd_quotes_defect_witness :
    msgQuotes 1 (realQuotes (("INSERT INTO videos (a) VALUES ('x);").data))
      ∈ stmtChecks 1 (("INSERT INTO videos (a) VALUES ('x);").data) [] :=
  odd_quotes_defect 1 (("INSERT INTO videos (a) VALUES ('x);").data) []
    (by decide) (by decide)

/-- The flag evolution of the splitting loop alone, detecting split points:
none once a split point has been passed, otherwise the in_string and
escape_next flags. -/
def flagStepO (o : Option (Bool × Bool)) (c : Char) : Option (Bool × Bool) :=
  match o with
  | none => none
  | some (ins, esc) =>
    if esc then some (ins, false)
    else if c = '\\' then some (ins, true)
    else
      let ins2 := if c = '\'' then !ins else ins
      if c = ';' ∧ ins2 = false then none
      else some (ins2, esc)

/-- Run the flag evolution from a flag pair over a character list. -/
def flagsFrom (p : Bool × Bool) (cs : List Char) : Option (Bool × Bool) :=
  cs.foldl flagStepO (some p)

theorem foldl_flagStepO_none (cs : List Char) :
    cs.foldl flagStepO none = none := by
  induction cs with
  | nil => rfl
  | cons c rest ih => simp [List.foldl_cons, flagStepO, ih]

/-- One splitter step with no split point is pure accumulation: the
character joins the buffer and the flags follow the flag evolution. -/
theorem splitStep_of_flagStepO (stmts : List (List Char)) (cur : List Char)
    (ins esc ins2 esc2 : Bool) (c : Char)
    (h : flagStepO (some (ins, esc)) c = some (ins2, esc2)) :
    splitStep ⟨stmts, cur, ins, esc⟩ c = ⟨stmts, cur ++ [c], ins2, esc2⟩ := by
  cases esc with
  | true =>
    simp only [flagStepO, if_true] at h
    injection h with h
    injection h with h1 h2
    simp [splitStep, ← h1, ← h2]
  | false =>
    by_cases hb : c = '\\'
    · subst hb
      simp only [flagStepO] at h
      injection h with h
      injection h with h1 h2
      simp [splitStep, ← h1, ← h2]
    · by_cases hs : c = ';' ∧ (if c = '\'' then !ins else ins) = false
      · exfalso
        obtain ⟨hc, hi⟩ := hs
        subst hc
        simp only [show ¬ (';' = '\'') from by decide, if_false] at hi
        simp [flagStepO, hi] at h
      · simp only [flagStepO, Bool.false_eq_true, if_false, if_neg hb,
          if_neg hs] at h
        injection h with h
        injection h with h1 h2
        simp only [splitStep, Bool.false_eq_true, if_false, if_neg hb,
          if_neg hs, ← h1, ← h2]

/-- A run of the splitting loop over text with no split point accumulates
the whole text onto the buffer and only moves the flags. -/
theorem foldl_split_no_split : ∀ (cs : List Char) (stmts : List (List Char))
    (cur : List Char) (ins esc insq escq : Bool),
    flagsFrom (ins, esc) cs = some (insq, escq) →
    List.foldl splitStep ⟨stmts, cur, ins, esc⟩ cs =
      ⟨stmts, cur ++ cs, insq, escq⟩ := by
  intro cs
  induction cs with
  | nil =>
    intro stmts cur ins esc insq escq h
    simp only [flagsFrom, List.foldl_nil, Option.some.injEq,
      Prod.mk.injEq] at h
    simp [h.1, h.2]
  | cons c rest ih =>
    intro stmts cur ins esc insq escq h
    simp only [flagsFrom, List.foldl_cons] at h
    rcases hr : flagStepO (some (ins, esc)) c with _ | ⟨ins2, esc2⟩
    · rw [hr, foldl_flagStepO_none] at h
      exact absurd h (by simp)
    · rw [hr] at h
      rw [List.foldl_cons, splitStep_of_flagStepO stmts cur ins esc ins2 esc2 c hr,
        ih stmts (cur ++ [c]) ins2 esc2 insq escq h]
      simp

/-- Appending a non-whitespace character commutes with stripping the
leading whitespace run. -/
theorem dropWhile_append_single (p : Char → Bool) (cur : List Char)
    (c : Char) (hc : p c = false) :
    (cur ++ [c]).dropWhile p = cur.dropWhile p ++ [c] := by
  induction cur with
  | nil => simp [List.dropWhile_cons, hc]
  | cons x xs ih =>
    by_cases hx : p x = true
    · simp [List.dropWhile_cons, hx, ih]
    · simp [List.dropWhile_cons, hx]

/-- Stripping the leading whitespace run twice is the same as once. -/
theorem dropWhile_dropWhile (p : Char → Bool) (l : List Char) :
    (l.dropWhile p).dropWhile p = l.dropWhile p := by
  induction l with
  | nil => rfl
  | cons x xs ih =>
    by_cases hx : p x = true
    · simp [List.dropWhile_cons, hx, ih]
    · simp [List.dropWhile_cons, hx]

/-- A whitespace prefix commutes out of the leading whitespace strip. -/
theorem dropWhile_ws_prepend (p : Char → Bool) (w l : List Char)
    (hw : ∀ c ∈ w, p c = true) :
    (w ++ l).dropWhile p = l.dropWhile p := by
  induction w with
  | nil => rfl
  | cons x xs ih =>
    have hx : p x = true := hw x (List.mem_cons_self x xs)
    simp only [List.cons_append, List.dropWhile_cons, hx, if_true]
    exact ih fun c hc => hw c (List.mem_cons_of_mem x hc)

/-- Python strip of a buffer ending in a semicolon keeps the semicolon and
only removes the leading whitespace run. -/
theorem pyStrip_semi_end (cur : List Char) :
    pyStrip (cur ++ [';']) =
      cur.dropWhile Char.isWhitespace ++ [';'] := by
  unfold pyStrip
  rw [dropWhile_append_single Char.isWhitespace cur ';' (by decide)]
  rw [List.reverse_append]
  simp only [List.reverse_cons, List.reverse_nil, List.nil_append,
    List.singleton_append, List.dropWhile_cons]
  rw [if_neg (by decide)]
  simp

/-- A whitespace prefix does not change a Python strip. -/
theorem pyStrip_ws_prepend (w l : List Char)
    (hw : ∀ c ∈ w, c.isWhitespace = true) :
    pyStrip (w ++ l) = pyStrip l := by
  unfold pyStrip
  rw [dropWhile_ws_prepend Char.isWhitespace w l hw]

/-- The flag evolution stays clean over whitespace. -/
theorem flagsFrom_ws (w : List Char)
    (hw : ∀ c ∈ w, c.isWhitespace = true) :
    flagsFrom (false, false) w = some (false, false) := by
  induction w with
  | nil => rfl
  | cons x xs ih =>
    have hx : x.isWhitespace = true := hw x (List.mem_cons_self x xs)
    have hb : ¬ x = '\\' := by
      intro hc; rw [hc] at hx; simp at hx
    have hq : ¬ x = '\'' := by
      intro hc; rw [hc] at hx; simp at hx
    have hs : ¬ x = ';' := by
      intro hc; rw [hc] at hx; simp at hx
    simp only [flagsFrom, List.foldl_cons]
    have : flagStepO (some (false, false)) x = some (false, false) := by
      simp [flagStepO, hb, hq, hs]
    rw [this]
    exact ih fun c hc => hw c (List.mem_cons_of_mem x hc)

/-- A statement string is good when scanning it from a clean splitter state
with any whitespace already in the buffer emits exactly that statement and
returns to the clean state. -/
def goodStmt (s : List Char) : Prop :=
  ∀ (stmts : List (List Char)) (w : List Char),
    (∀ c ∈ w, c.isWhitespace = true) →
    List.foldl splitStep ⟨stmts, w, false, false⟩ s =
      ⟨stmts ++ [s], [], false, false⟩

/-- A buffer scanned from the clean state with no split point along the way
and clean flags at its end yields a good statement once the splitting
semicolon arrives. -/
theorem goodStmt_of_clean_scan (cur : List Char)
    (h : flagsFrom (false, false) cur = some (false, false)) :
    goodStmt (pyStrip (cur ++ [';'])) := by
  have hd : flagsFrom (false, false) (cur.dropWhile Char.isWhitespace) =
      some (false, false) := by
    have hsplit := List.takeWhile_append_dropWhile Char.isWhitespace cur
    have htake : ∀ c ∈ cur.takeWhile Char.isWhitespace,
        c.isWhitespace = true := fun c hc => List.mem_takeWhile_imp hc
    rw [← hsplit] at h
    rw [flagsFrom, List.foldl_append] at h
    have := flagsFrom_ws (cur.takeWhile Char.isWhitespace) htake
    rw [flagsFrom] at this
    rw [this] at h
    exact h
  rw [pyStrip_semi_end]
  intro stmts w hw
  rw [List.foldl_append]
  have hacc := foldl_split_no_split (cur.dropWhile Char.isWhitespace)
    stmts w false false false false hd
  rw [hacc]
  simp only [List.foldl_cons, List.foldl_nil]
  have hstep : splitStep
      ⟨stmts, w ++ cur.dropWhile Char.isWhitespace, false, false⟩ ';' =
      ⟨stmts ++ [pyStrip ((w ++ cur.dropWhile Char.isWhitespace) ++ [';'])],
        [], false, false⟩ := by
    simp [splitStep]
  rw [hstep, List.append_assoc,
    pyStrip_ws_prepend w (cur.dropWhile Char.isWhitespace ++ [';']) hw,
    pyStrip_semi_end, dropWhile_dropWhile]

/-- The flag evolution only fails at an unescaped top-level semicolon. -/
theorem flagStepO_none_cases (ins esc : Bool) (c : Char)
    (h : flagStepO (some (ins, esc)) c = none) :
    esc = false ∧ c = ';' ∧ ins = false := by
  cases esc with
  | true => simp [flagStepO] at h
  | false =>
    by_cases hb : c = '\\'
    · simp [flagStepO, hb] at h
    · simp only [flagStepO, Bool.false_eq_true, if_false, if_neg hb] at h
      by_cases hs : c = ';' ∧ (if c = '\'' then !ins else ins) = false
      · obtain ⟨hc, hi⟩ := hs
        subst hc
        rw [if_neg (by decide : ¬ (';' = '\''))] at hi
        exact ⟨rfl, rfl, hi⟩
      · rw [if_neg hs] at h
        exact absurd h (by simp)

/-- Every statement the splitting loop emits from a state whose buffer has
seen no split point is a good statement. -/
theorem emitted_good : ∀ (cs : List Char) (stmts : List (List Char))
    (cur : List Char) (ins esc : Bool),
    flagsFrom (false, false) cur = some (ins, esc) →
    ∀ s ∈ (List.foldl splitStep ⟨stmts, cur, ins, esc⟩ cs).statements,
      s ∈ stmts ∨ goodStmt s := by
  intro cs
  induction cs with
  | nil =>
    intro stmts cur ins esc _ s hs
    exact Or.inl hs
  | cons c rest ih =>
    intro stmts cur ins esc hinv s hs
    rw [List.foldl_cons] at hs
    rcases hr : flagStepO (some (ins, esc)) c with _ | ⟨ins2, esc2⟩
    · obtain ⟨hesc, hc, hins⟩ := flagStepO_none_cases ins esc c hr
      subst hesc; subst hc; subst hins
      have hstep : splitStep ⟨stmts, cur, false, false⟩ ';' =
          ⟨stmts ++ [pyStrip (cur ++ [';'])], [], false, false⟩ := by
        simp [splitStep]
      rw [hstep] at hs
      rcases ih (stmts ++ [pyStrip (cur ++ [';'])]) [] false false rfl s hs
        with h | h
      · rcases List.mem_append.mp h with h2 | h2
        · exact Or.inl h2
        · rcases List.mem_singleton.mp h2 with rfl
          exact Or.inr (goodStmt_of_clean_scan cur hinv)
      · exact Or.inr h
    · rw [splitStep_of_flagStepO stmts cur ins esc ins2 esc2 c hr] at hs
      have hinv2 : flagsFrom (false, false) (cur ++ [c]) =
          some (ins2, esc2) := by
        rw [flagsFrom, List.foldl_append]
        rw [flagsFrom] at hinv
        rw [hinv]
        simpa using hr
      exact ih stmts (cur ++ [c]) ins2 esc2 hinv2 s hs

/-- Scanning a newline-joined list of good statements from a clean state
with a whitespace buffer emits exactly that list and ends clean. -/
theorem rejoin_good : ∀ (L : List (List Char)) (stmts : List (List Char))
    (w : List Char), (∀ c ∈ w, c.isWhitespace = true) →
    (∀ s ∈ L, goodStmt s) → L ≠ [] →
    List.foldl splitStep ⟨stmts, w, false, false⟩ (joinNL L) =
      ⟨stmts ++ L, [], false, false⟩ := by
  intro L
  induction L with
  | nil => intro _ _ _ _ h; exact absurd rfl h
  | cons s rest ih =>
    intro stmts w hw hg _
    cases rest with
    | nil =>
      rw [joinNL]
      exact hg s (List.mem_cons_self s []) stmts w hw
    | cons t rest2 =>
      rw [joinNL, List.foldl_append,
        hg s (List.mem_cons_self s (t :: rest2)) stmts w hw,
        List.foldl_cons]
      have hstep : splitStep ⟨stmts ++ [s], [], false, false⟩ '\n' =
          ⟨stmts ++ [s], ['\n'], false, false⟩ := by
        simp [splitStep]
      rw [hstep,
        ih (stmts ++ [s]) ['\n'] (by intro c hc; simp at hc; simp [hc])
          (fun x hx => hg x (List.mem_cons_of_mem s hx)) (by simp)]
      simp

/-- C2 amended: re-splitting the newline-joined statement list of the
splitter (statements already carry their terminating semicolons) yields the
same statement list. -/
theorem split_joinNL_idem (content : List Char) :
    splitStatements (joinNL (splitStatements content)) =
      splitStatements content := by
  have hg : ∀ s ∈ splitStatements content, goodStmt s := by
    intro s hs
    rcases emitted_good content [] [] false false rfl s hs with h | h
    · exact absurd h (List.not_mem_nil s)
    · exact h
  cases hL : splitStatements content with
  | nil => rw [joinNL]; rfl
  | cons s rest =>
    rw [hL] at hg
    have hrun := rejoin_good (s :: rest) [] [] (by intro c hc; simp at hc)
      hg (by simp)
    rw [splitStatements, show splitInit = ⟨[], [], false, false⟩ from rfl,
      hrun]
    simp

/-- Outcome of opening and reading the input file: its content, a missing
file, or any other I/O failure. -/
inductive ReadResult where
  | content (s : List Char)
  | fileNotFound
  | ioError (e : String)
deriving DecidableEq

/-- Python file iteration: the lines of the content, one per newline, the
kept trailing newline of each line elided (the validator strips each line
before use anyway); empty content yields no lines. -/
def pyLines (content : List Char) : List (List Char) :=
  if content = [] then []
  else if content.getLast? = some '\n' then
    (content.splitOn '\n').dropLast
  else
    content.splitOn '\n'

/-- Defect text of validate_fixed_sql.py for a non-INSERT line. -/
def msgLineNotInsert (lineNum : Nat) : String :=
  "Line " ++ toString lineNum ++ ": Not an INSERT statement"

/-- Defect text of validate_fixed_sql.py for a line not ending in a
semicolon. -/
def msgLineMissingSemi (lineNum : Nat) : String :=
  "Line " ++ toString lineNum ++ ": Missing semicolon"

/-- Defect text of validate_fixed_sql.py for a line with an odd total
single-quote count. -/
def msgLineUnbalanced (lineNum : Nat) : String :=
  "Line " ++ toString lineNum ++ ": Unbalanced quotes"

/-- The loop body of validate_sql_file in validate_fixed_sql.py
(lines 16-34): strip the line, skip empty lines, require the INSERT prefix
and otherwise skip the rest, then check the trailing semicolon and the
total quote parity. -/
def fixedLineChecks (lineNum : Nat) (line : List Char)
    (errors : List String) : List String :=
  let l := pyStrip line
  if l = [] then errors
  else if ¬ insHead.isPrefixOf l then errors ++ [msgLineNotInsert lineNum]
  else
    let e1 := if l.getLast? ≠ some ';' then
      errors ++ [msgLineMissingSemi lineNum] else errors
    if List.count '\'' l % 2 ≠ 0 then
      e1 ++ [msgLineUnbalanced lineNum] else e1

/-- validate_sql_file of validate_fixed_sql.py (lines 9-39): the line loop
runs over the file content; a FileNotFoundError is caught and turned into
the single file-not-found defect; any other I/O failure is not caught and
escapes as an exception. -/
def validateFixedSql (filePath : String) (r : ReadResult) :
    Except String (Nat × List String) :=
  match r with
  | .content s =>
    .ok ((pyLines s).enum.foldl
      (fun acc p => (acc.1 + 1, fixedLineChecks (p.1 + 1) p.2 acc.2))
      (0, []))
  | .fileNotFound => .ok (0, ["File not found: " ++ filePath])
  | .ioError e => .error e

/-- validate_sql_file of validate_migration_improved.py at file level
(lines 11-12): the open call is not guarded, so a missing file or any
other I/O failure escapes as an exception. -/
def validateImprovedFile (r : ReadResult) :
    Except String (Nat × List String) :=
  match r with
  | .content s => .ok (validateContent s)
  | .fileNotFound => .error "FileNotFoundError"
  | .ioError e => .error e

/-- C8 counterexample: validate_sql_file of validate_migration_improved.py
on a missing input file raises instead of returning a defect list. -/
theorem missing_file_raises_cex :
    validateImprovedFile ReadResult.fileNotFound =
      Except.error "FileNotFoundError" := rfl

/-- C8 amended: validate_fixed_sql turns a missing input file into a
returned defect list with exactly one file-not-found entry, but an I/O
anomaly other than a missing file escapes it as an exception, and
validate_migration_improved lets even the missing-file anomaly escape. -/
theorem missing_file_semantics :
    (∀ filePath : String,
      validateFixedSql filePath ReadResult.fileNotFound =
        Except.ok (0, ["File not found: " ++ filePath])) ∧
    (∀ (filePath e : String),
      validateFixedSql filePath (ReadResult.ioError e) = Except.error e) ∧
    validateImprovedFile ReadResult.fileNotFound =
      Except.error "FileNotFoundError" :=
  ⟨fun _ => rfl, fun _ _ => rfl, rfl⟩

/-- A Python value as it occurs in a SQLite videos row: NULL, an integer,
or a string. -/
inductive PyVal where
  | pnone
  | pint (n : Int)
  | pstr (s : String)
deriving DecidableEq

/-- Python truthiness of a row value. -/
def pyTruthy : PyVal → Bool
  | .pnone => false
  | .pint n => n != 0
  | .pstr s => s != ""

/-- Python isinstance against (int, type(None)) for a row value. -/
def isIntOrNone : PyVal → Bool
  | .pnone => true
  | .pint _ => true
  | .pstr _ => false

/-- One row of the videos table with the twelve selected columns
(migrate_videos_to_d1.py, lines 68-84). -/
structure VideoRow where
  video_id : PyVal
  cleaned_title : PyVal
  cleaned_description : PyVal
  channel_name : PyVal
  channel_id : PyVal
  published_at : PyVal
  duration_seconds : PyVal
  view_count : PyVal
  like_count : PyVal
  comment_count : PyVal
  is_indexed : PyVal
  created_at : PyVal

/-- validate_row of migrate_videos_to_d1.py (lines 14-26): a falsy video_id
fails, then each numeric field that is truthy and neither int nor None
fails, in field order. -/
def validateRow (row : VideoRow) : Bool × String :=
  if ¬ pyTruthy row.video_id then (false, "Missing video_id")
  else if pyTruthy row.duration_seconds &&
      ! isIntOrNone row.duration_seconds then
    (false, "Invalid type for duration_seconds")
  else if pyTruthy row.view_count && ! isIntOrNone row.view_count then
    (false, "Invalid type for view_count")
  else if pyTruthy row.like_count && ! isIntOrNone row.like_count then
    (false, "Invalid type for like_count")
  else if pyTruthy row.comment_count && ! isIntOrNone row.comment_count then
    (false, "Invalid type for comment_count")
  else (true, "")

/-- The successful and failed row counts of migrate
(migrate_videos_to_d1.py, lines 86-122): every fetched row either passes
validation and is generated into a statement or is counted as failed. -/
def migrateCounts (rows : List VideoRow) : Nat × Nat :=
  rows.foldl
    (fun acc r =>
      if (validateRow r).1 then (acc.1 + 1, acc.2) else (acc.1, acc.2 + 1))
    (0, 0)

/-- The process exit code of migrate_videos_to_d1.py (line 162): one when
any row failed, zero otherwise. -/
def migrateExitCode (rows : List VideoRow) : Nat :=
  if (migrateCounts rows).2 > 0 then 1 else 0

/-- success_count of main in execute_migration_batches.py (lines 56-67):
batches run in order and the loop breaks at the first failed batch. -/
def batchSuccessCount : List Bool → Nat
  | [] => 0
  | b :: rest => if b then 1 + batchSuccessCount rest else 0

/-- The process exit code of execute_migration_batches.py (lines 74-83):
zero exactly when every batch, total_batches many, succeeded. -/
def batchesExitCode (results : List Bool) : Nat :=
  if batchSuccessCount results = results.length then 0 else 1

theorem batchSuccessCount_eq_length (results : List Bool) :
    batchSuccessCount results = results.length ↔
      ∀ b ∈ results, b = true := by
  induction results with
  | nil => simp [batchSuccessCount]
  | cons b rest ih =>
    cases b with
    | true =>
      have h1 : batchSuccessCount (true :: rest) =
          1 + batchSuccessCount rest := by simp [batchSuccessCount]
      rw [h1, List.length_cons]
      constructor
      · intro hlen x hx
        rcases List.mem_cons.mp hx with rfl | hx2
        · rfl
        · exact (ih.mp (by omega)) x hx2
      · intro hall
        have := ih.mpr fun x hx => hall x (List.mem_cons_of_mem true hx)
        omega
    | false =>
      have h1 : batchSuccessCount (false :: rest) = 0 := by
        simp [batchSuccessCount]
      rw [h1, List.length_cons]
      constructor
      · intro hlen
        exact absurd hlen (by omega)
      · intro hall
        have := hall false (List.mem_cons_self false rest)
        exact absurd this (by simp)

/-- C9: migrate_videos_to_d1.py exits with code zero exactly when no row
failed and one exactly when some row failed, and
execute_migration_batches.py exits with code zero exactly when every batch
succeeded and one exactly when some batch failed. -/
theorem migration_exit_codes :
    (∀ rows : List VideoRow,
      (migrateExitCode rows = 0 ↔ (migrateCounts rows).2 = 0) ∧
      (migrateExitCode rows = 1 ↔ 0 < (migrateCounts rows).2)) ∧
    (∀ results : List Bool,
      (batchesExitCode results = 0 ↔ ∀ b ∈ results, b = true) ∧
      (batchesExitCode results = 1 ↔ ∃ b ∈ results, b = false)) := by
  constructor
  · intro rows
    rcases hk : (migrateCounts rows).2 with _ | k
    · simp [migrateExitCode, hk]
    · simp [migrateExitCode, hk]
  · intro results
    have h := batchSuccessCount_eq_length results
    by_cases hc : batchSuccessCount results = results.length
    · rw [batchesExitCode, if_pos hc]
      have hall := h.mp hc
      constructor
      · simp only [true_iff]
        exact hall
      · constructor
        · intro h0
          exact absurd h0 (by omega)
        · rintro ⟨b, hb, rfl⟩
          exact absurd (hall false hb) (by simp)
    · rw [batchesExitCode, if_neg hc]
      have hex : ∃ b ∈ results, b = false := by
        have hne : ¬ ∀ b ∈ results, b = true := fun hall => hc (h.mpr hall)
        push_neg at hne
        obtain ⟨b, hb, hbne⟩ := hne
        exact ⟨b, hb, by simpa using hbne⟩
      constructor
      · constructor
        · intro h1
          exact absurd h1 (by omega)
        · intro hall
          exact absurd (h.mpr hall) hc
      · simp [hex]

/-- transform_row of migrate_videos_to_d1.py (lines 28-44): the ordered
column-to-value association of the generated dict; every key is present in
the fetched row, so each get returns the stored value. -/
def transformRow (row : VideoRow) : List (String × PyVal) :=
  [("video_id", row.video_id),
   ("cleaned_title", row.cleaned_title),
   ("cleaned_description", row.cleaned_description),
   ("channel_name", row.channel_name),
   ("channel_id", row.channel_id),
   ("published_at", row.published_at),
   ("duration_seconds", row.duration_seconds),
   ("view_count", row.view_count),
   ("like_count", row.like_count),
   ("comment_count", row.comment_count),
   ("is_indexed", row.is_indexed),
   ("created_at", row.created_at)]

/-- Python str.replace of a single quote by a doubled quote, one character
at a time. -/
def doubleQuote (c : Char) : List Char :=
  if c = '\'' then ['\'', '\''] else [c]

/-- escape_sql_string of migrate_videos_to_d1.py (lines 46-53): NULL stays
bare, numbers render bare, any other value is wrapped in one quote pair
with embedded quotes doubled. -/
def escapeSqlString : PyVal → List Char
  | .pnone => ("NULL").data
  | .pint n => (Int.repr n).data
  | .pstr s => '\'' :: (s.data.flatMap doubleQuote ++ ['\''])

/-- Python str.join with a comma and a space. -/
def commaJoin : List (List Char) → List Char
  | [] => []
  | [s] => s
  | s :: t :: rest => s ++ ',' :: ' ' :: commaJoin (t :: rest)

/-- generate_insert_statement of migrate_videos_to_d1.py (lines 55-59). -/
def generateInsertStatement (row : List (String × PyVal)) : List Char :=
  ("INSERT INTO videos (").data ++ commaJoin (row.map fun p => p.1.data)
    ++ (") VALUES (").data
    ++ commaJoin (row.map fun p => escapeSqlString p.2)
    ++ (");").data

example :
    generateInsertStatement
        [("video_id", PyVal.pstr "a'b"), ("view_count", PyVal.pint 3),
         ("created_at", PyVal.pnone)] =
      ("INSERT INTO videos (video_id, view_count, created_at) " ++
        "VALUES ('a''b', 3, NULL);").data := by decide

/-- A digit character below base ten is never a single quote or a
backslash. -/
theorem digitChar_safe (m : Nat) (hm : m < 10) :
    Nat.digitChar m ≠ '\'' ∧ Nat.digitChar m ≠ '\\' := by
  interval_cases m <;> decide

/-- Every character of the base-ten digit expansion is safe. -/
theorem toDigitsCore_safe : ∀ (fuel n : Nat) (ds : List Char),
    (∀ c ∈ ds, c ≠ '\'' ∧ c ≠ '\\') →
    ∀ c ∈ Nat.toDigitsCore 10 fuel n ds, c ≠ '\'' ∧ c ≠ '\\' := by
  intro fuel
  induction fuel with
  | zero => intro n ds h c hc; exact h c hc
  | succ f ih =>
    intro n ds h c hc
    rw [Nat.toDigitsCore] at hc
    have hd : ∀ x ∈ Nat.digitChar (n % 10) :: ds, x ≠ '\'' ∧ x ≠ '\\' := by
      intro x hx
      rcases List.mem_cons.mp hx with rfl | hx2
      · exact digitChar_safe (n % 10) (Nat.mod_lt n (by omega))
      · exact h x hx2
    by_cases hz : n / 10 = 0
    · simp only [hz, if_pos] at hc
      exact hd c hc
    · rw [if_neg hz] at hc
      exact ih (n / 10) (Nat.digitChar (n % 10) :: ds) hd c hc

/-- Every character of the decimal rendering of an integer is safe: a
digit or a minus sign, never a quote or a backslash. -/
theorem int_repr_safe (i : Int) :
    ∀ c ∈ (Int.repr i).data, c ≠ '\'' ∧ c ≠ '\\' := by
  cases i with
  | ofNat n =>
    intro c hc
    have : c ∈ Nat.toDigits 10 n := hc
    rw [Nat.toDigits] at this
    exact toDigitsCore_safe (n + 1) n [] (by intro x hx; simp at hx) c this
  | negSucc m =>
    intro c hc
    rw [show Int.repr (Int.negSucc m) = "-" ++ Nat.repr (m + 1) from rfl,
      String.data_append] at hc
    rcases List.mem_append.mp hc with h1 | h2
    · rcases List.mem_singleton.mp h1 with rfl
      decide
    · have : c ∈ Nat.toDigits 10 (m + 1) := h2
      rw [Nat.toDigits] at this
      exact toDigitsCore_safe (m + 2) (m + 1) []
        (by intro x hx; simp at hx) c this

/-- Doubling quotes doubles the quote count. -/
theorem count_quote_flatMap (s : List Char) :
    List.count '\'' (s.flatMap doubleQuote) = 2 * List.count '\'' s := by
  induction s with
  | nil => rfl
  | cons c rest ih =>
    rw [List.flatMap_cons, List.count_append, ih, List.count_cons]
    by_cases hc : c = '\''
    · subst hc
      rw [show List.count '\'' (doubleQuote '\'') = 2 from by decide,
        show (('\'' : Char) == '\'') = true from by decide]
      simp
      omega
    · have h1 : List.count '\'' (doubleQuote c) = 0 :=
        List.count_eq_zero.mpr (by
          rw [show doubleQuote c = [c] from by simp [doubleQuote, hc]]
          simp
          exact fun h => hc h.symm)
      have h2 : (c == '\'') = false := by simp [hc]
      rw [h1, h2]
      simp

/-- Doubling quotes leaves the count of any other character unchanged. -/
theorem count_other_flatMap (c0 : Char) (h0 : c0 ≠ '\'') (s : List Char) :
    List.count c0 (s.flatMap doubleQuote) = List.count c0 s := by
  induction s with
  | nil => rfl
  | cons c rest ih =>
    rw [List.flatMap_cons, List.count_append, ih, List.count_cons]
    by_cases hc : c = '\''
    · subst hc
      have h1 : List.count c0 (doubleQuote '\'') = 0 :=
        List.count_eq_zero.mpr (by
          rw [show doubleQuote '\'' = ['\'', '\''] from rfl]
          simp
          exact fun h => h0 h)
      have h2 : (('\'' : Char) == c0) = false := by
        simp
        exact fun h => h0 h.symm
      rw [h1, h2]
      simp
    · rw [show doubleQuote c = [c] from by simp [doubleQuote, hc]]
      rw [show List.count c0 [c] = if c == c0 then 1 else 0 from by
        rw [show [c] = c :: ([] : List Char) from rfl, List.count_cons]
        simp]
      omega

/-- Values without a backslash embedded: NULL and numbers trivially,
strings by their characters. -/
def noBackslash : PyVal → Bool
  | .pstr s => s.data.all fun c => c != '\\'
  | _ => true

/-- Every escaped value carries an even number of single quotes: zero for
NULL and numbers, a wrapping pair plus doubled embedded quotes for
strings. -/
theorem escape_quote_even (v : PyVal) :
    List.count '\'' (escapeSqlString v) % 2 = 0 := by
  cases v with
  | pnone => decide
  | pint n =>
    have h : List.count '\'' (escapeSqlString (PyVal.pint n)) = 0 :=
      List.count_eq_zero.mpr fun hm => (int_repr_safe n '\'' hm).1 rfl
    rw [h]
  | pstr s =>
    show List.count '\'' ('\'' :: (s.data.flatMap doubleQuote ++ ['\''])) %
      2 = 0
    rw [List.count_cons, List.count_append, count_quote_flatMap]
    rw [show List.count '\'' ['\''] = 1 from by decide,
      show (('\'' : Char) == '\'') = true from by decide]
    simp
    omega

/-- An escaped value holds no backslash when the value has none. -/
theorem escape_no_backslash (v : PyVal) (h : noBackslash v = true) :
    List.count '\\' (escapeSqlString v) = 0 := by
  cases v with
  | pnone => decide
  | pint n =>
    exact List.count_eq_zero.mpr fun hm => (int_repr_safe n '\\' hm).2 rfl
  | pstr s =>
    show List.count '\\' ('\'' :: (s.data.flatMap doubleQuote ++ ['\''])) = 0
    rw [List.count_cons, List.count_append,
      count_other_flatMap '\\' (by decide) s.data]
    have hz : List.count '\\' s.data = 0 := by
      have h2 : s.data.all (fun c => c != '\\') = true := h
      apply List.count_eq_zero.mpr
      intro hm
      exact absurd (List.all_eq_true.mp h2 '\\' hm) (by simp)
    rw [hz, show List.count '\\' ['\''] = 0 from by decide,
      show (('\'' : Char) == '\\') = false from by decide]
    simp

/-- A comma-space join counts a separator-free character exactly as the
sum over the joined pieces. -/
theorem count_commaJoin (c : Char) (hc1 : c ≠ ',') (hc2 : c ≠ ' ') :
    ∀ L : List (List Char),
      List.count c (commaJoin L) = (L.map (List.count c)).sum := by
  intro L
  induction L with
  | nil => simp [commaJoin]
  | cons s rest ih =>
    cases rest with
    | nil => simp [commaJoin]
    | cons t r2 =>
      rw [commaJoin, List.count_append, List.count_cons, List.count_cons,
        ih]
      have h1 : ((',' : Char) == c) = false := by
        simp
        exact fun h => hc1 h.symm
      have h2 : ((' ' : Char) == c) = false := by
        simp
        exact fun h => hc2 h.symm
      rw [h1, h2]
      simp [List.map_cons, List.sum_cons]

/-- With no backslash in sight the escape-aware quote scan counts every
quote: the count matches the plain quote count. -/
theorem realQuotes_no_backslash :
    ∀ (s : List Char) (k : Nat), List.count '\\' s = 0 →
    (s.foldl quoteScanStep (k, false)).1 = k + List.count '\'' s := by
  intro s
  induction s with
  | nil => intro k _; simp
  | cons c rest ih =>
    intro k h
    rw [List.count_cons] at h
    have hb : c ≠ '\\' := by
      intro hc
      rw [hc] at h
      simp at h
    have hrest : List.count '\\' rest = 0 := by omega
    rw [List.foldl_cons, List.count_cons]
    by_cases hq : c = '\''
    · subst hq
      rw [show quoteScanStep (k, false) '\'' = (k + 1, false) from by
        simp [quoteScanStep]]
      rw [ih (k + 1) hrest]
      simp
      omega
    · rw [show quoteScanStep (k, false) c = (k, false) from by
        simp [quoteScanStep, hb, hq]]
      rw [ih k hrest]
      have : (c == '\'') = false := by simp [hq]
      rw [this]
      simp

/-- The fixed text of a generated INSERT statement up to the value list:
the column names come from transform_row and never vary. -/
def genHead : List Char :=
  ("INSERT INTO videos (video_id, cleaned_title, cleaned_description, " ++
    "channel_name, channel_id, published_at, duration_seconds, " ++
    "view_count, like_count, comment_count, is_indexed, created_at) " ++
    "VALUES (").data

/-- The escaped values of a transformed row in column order. -/
def genVals (row : VideoRow) : List (List Char) :=
  [escapeSqlString row.video_id, escapeSqlString row.cleaned_title,
   escapeSqlString row.cleaned_description, escapeSqlString row.channel_name,
   escapeSqlString row.channel_id, escapeSqlString row.published_at,
   escapeSqlString row.duration_seconds, escapeSqlString row.view_count,
   escapeSqlString row.like_count, escapeSqlString row.comment_count,
   escapeSqlString row.is_indexed, escapeSqlString row.created_at]

/-- A generated statement is the fixed head, the joined escaped values and
the closing paren with semicolon. -/
theorem genStmt_decomp (row : VideoRow) :
    generateInsertStatement (transformRow row) =
      genHead ++ commaJoin (genVals row) ++ (");").data := rfl

/-- The total quote count of a generated statement is even. -/
theorem genStmt_quote_even (row : VideoRow) :
    List.count '\'' (generateInsertStatement (transformRow row)) % 2 = 0 := by
  rw [genStmt_decomp, List.count_append, List.count_append,
    count_commaJoin '\'' (by decide) (by decide) (genVals row)]
  rw [show List.count '\'' genHead = 0 from by decide,
    show List.count '\'' ((");").data) = 0 from by decide]
  simp only [genVals, List.map_cons, List.map_nil, List.sum_cons,
    List.sum_nil]
  have h1 := escape_quote_even row.video_id
  have h2 := escape_quote_even row.cleaned_title
  have h3 := escape_quote_even row.cleaned_description
  have h4 := escape_quote_even row.channel_name
  have h5 := escape_quote_even row.channel_id
  have h6 := escape_quote_even row.published_at
  have h7 := escape_quote_even row.duration_seconds
  have h8 := escape_quote_even row.view_count
  have h9 := escape_quote_even row.like_count
  have h10 := escape_quote_even row.comment_count
  have h11 := escape_quote_even row.is_indexed
  have h12 := escape_quote_even row.created_at
  omega

/-- A generated statement over backslash-free values holds no backslash. -/
theorem genStmt_no_backslash (row : VideoRow)
    (h : ∀ p ∈ transformRow row, noBackslash p.2 = true) :
    List.count '\\' (generateInsertStatement (transformRow row)) = 0 := by
  rw [genStmt_decomp, List.count_append, List.count_append,
    count_commaJoin '\\' (by decide) (by decide) (genVals row)]
  rw [show List.count '\\' genHead = 0 from by decide,
    show List.count '\\' ((");").data) = 0 from by decide]
  simp only [genVals, List.map_cons, List.map_nil, List.sum_cons,
    List.sum_nil]
  have h1 := escape_no_backslash row.video_id
    (h ("video_id", row.video_id) (by simp [transformRow]))
  have h2 := escape_no_backslash row.cleaned_title
    (h ("cleaned_title", row.cleaned_title) (by simp [transformRow]))
  have h3 := escape_no_backslash row.cleaned_description
    (h ("cleaned_description", row.cleaned_description)
      (by simp [transformRow]))
  have h4 := escape_no_backslash row.channel_name
    (h ("channel_name", row.channel_name) (by simp [transformRow]))
  have h5 := escape_no_backslash row.channel_id
    (h ("channel_id", row.channel_id) (by simp [transformRow]))
  have h6 := escape_no_backslash row.published_at
    (h ("published_at", row.published_at) (by simp [transformRow]))
  have h7 := escape_no_backslash row.duration_seconds
    (h ("duration_seconds", row.duration_seconds) (by simp [transformRow]))
  have h8 := escape_no_backslash row.view_count
    (h ("view_count", row.view_count) (by simp [transformRow]))
  have h9 := escape_no_backslash row.like_count
    (h ("like_count", row.like_count) (by simp [transformRow]))
  have h10 := escape_no_backslash row.comment_count
    (h ("comment_count", row.comment_count) (by simp [transformRow]))
  have h11 := escape_no_backslash row.is_indexed
    (h ("is_indexed", row.is_indexed) (by simp [transformRow]))
  have h12 := escape_no_backslash row.created_at
    (h ("created_at", row.created_at) (by simp [transformRow]))
  omega

/-- A row whose cleaned_title value is a single backslash, used to separate
total quote parity from the escape-aware quote scan. -/
def cexRow : VideoRow :=
  ⟨PyVal.pstr "x", PyVal.pstr "\\", PyVal.pnone, PyVal.pnone, PyVal.pnone,
   PyVal.pnone, PyVal.pnone, PyVal.pnone, PyVal.pnone, PyVal.pnone,
   PyVal.pnone, PyVal.pnone⟩

set_option maxRecDepth 100000 in
/-- C10 counterexample: a generated statement with a backslash value has an
even total quote count yet an odd unescaped-quote count under the
validator's escape-aware scan, so the validator's even-quote-count check
fails and emits its defect. -/
theorem generated_backslash_cex :
    List.count '\'' (generateInsertStatement (transformRow cexRow)) % 2 = 0
      ∧
    realQuotes (generateInsertStatement (transformRow cexRow)) % 2 = 1 ∧
    checkQuotes 1 (generateInsertStatement (transformRow cexRow)) =
      [msgQuotes 1
        (realQuotes (generateInsertStatement (transformRow cexRow)))] := by
  decide

/-- C10 amended: every generated statement ends in a semicolon and has an
even total single-quote count; when no value contains a backslash, the
validators' escape-aware unescaped-quote count is that same even count, so
the even-quote-count check passes. -/
theorem generated_statement_props (row : VideoRow) :
    (generateInsertStatement (transformRow row)).getLast? = some ';' ∧
    List.count '\'' (generateInsertStatement (transformRow row)) % 2 = 0 ∧
    ((∀ p ∈ transformRow row, noBackslash p.2 = true) →
      realQuotes (generateInsertStatement (transformRow row)) % 2 = 0) := by
  refine ⟨?g1, genStmt_quote_even row, ?g3⟩
  · rw [genStmt_decomp, List.getLast?_append]
    rfl
  · intro h
    have hb := genStmt_no_backslash row h
    have heq := realQuotes_no_backslash
      (generateInsertStatement (transformRow row)) 0 hb
    unfold realQuotes
    rw [heq, Nat.zero_add]
    exact genStmt_quote_even row

/-- Witness for the amended C10 on a concrete backslash-free row. -/
theorem generated_statement_props_witness :
    (generateInsertStatement (transformRow
      ⟨PyVal.pstr "v1", PyVal.pstr "a'b", PyVal.pnone, PyVal.pnone,
       PyVal.pnone, PyVal.pnone, PyVal.pint 5, PyVal.pint 10, PyVal.pnone,
       PyVal.pnone, PyVal.pint 1, PyVal.pstr "2024"⟩)).getLast? = some ';'
      ∧
    List.count '\'' (generateInsertStatement (transformRow
      ⟨PyVal.pstr "v1", PyVal.pstr "a'b", PyVal.pnone, PyVal.pnone,
       PyVal.pnone, PyVal.pnone, PyVal.pint 5, PyVal.pint 10, PyVal.pnone,
       PyVal.pnone, PyVal.pint 1, PyVal.pstr "2024"⟩)) % 2 = 0 ∧
    realQuotes (generateInsertStatement (transformRow
      ⟨PyVal.pstr "v1", PyVal.pstr "a'b", PyVal.pnone, PyVal.pnone,
       PyVal.pnone, PyVal.pnone, PyVal.pint 5, PyVal.pint 10, PyVal.pnone,
       PyVal.pnone, PyVal.pint 1, PyVal.pstr "2024"⟩)) % 2 = 0 :=
  ⟨(generated_statement_props _).1, (generated_statement_props _).2.1,
   (generated_statement_props
     ⟨PyVal.pstr "v1", PyVal.pstr "a'b", PyVal.pnone, PyVal.pnone,
      PyVal.pnone, PyVal.pnone, PyVal.pint 5, PyVal.pint 10, PyVal.pnone,
      PyVal.pnone, PyVal.pint 1, PyVal.pstr "2024"⟩).2.2 (by decide)⟩
